import Mathlib

/-!
Shallow embedding of the user-aggregate API of `src/routes/users.js`
(Express + MySQL), together with the table schema declared in the
repository's `debug/create-tables` endpoint:

* `users (id BIGINT PRIMARY KEY, username UNIQUE NOT NULL, email UNIQUE NOT NULL, …)`
* `user_accounts`, `user_addresses`, `user_preferences`, `user_profiles`
  (each keyed by `user_id`, no uniqueness constraint on `user_id`).

The store is the five tables as lists of rows.  Handlers are modelled as
functions from the store (plus the nondeterministic inputs they consume:
the stream of `generateRandomId` draws and the `NOW()` timestamp) to a
response together with the store that is durably committed afterwards;
the JS `try { … commit } catch { rollback; throw }` pattern appears as
returning the original store on any error.

JS truthiness conventions used throughout: an absent or non-numeric
query parameter is `none`; an absent object field is `none`; the JS
defaulting idiom `x || d` becomes `orDefaultStr` / `orDefaultBool`
(an empty string and `false` are falsy, so they fall back to `d`).
-/

namespace ApiN8n

/-- Row of the `users` table. Timestamps are abstract ticks (`Nat`). -/
structure UserRow where
  id : Nat
  username : String
  email : String
  first_name : Option String
  last_name : Option String
  phone : Option String
  date_of_birth : Option String
  gender : Option String
  created_at : Nat
  updated_at : Nat
  deriving Repr, DecidableEq

/-- Row of the `user_accounts` table (columns used by the handlers). -/
structure AccountRow where
  user_id : Nat
  status : String
  role : String
  subscription : String
  deriving Repr, DecidableEq

/-- Row of the `user_addresses` table. -/
structure AddressRow where
  user_id : Nat
  street : Option String
  city : Option String
  province : Option String
  postal_code : Option String
  country : Option String
  deriving Repr, DecidableEq

/-- Row of the `user_preferences` table (`notify_*` are BOOLEAN columns). -/
structure PreferencesRow where
  user_id : Nat
  language : String
  timezone : String
  notify_email : Bool
  notify_sms : Bool
  notify_push : Bool
  deriving Repr, DecidableEq

/-- Row of the `user_profiles` table. -/
structure ProfileRow where
  user_id : Nat
  avatar : Option String
  bio : Option String
  website : Option String
  instagram : Option String
  linkedin : Option String
  deriving Repr, DecidableEq

/-- The five tables of the schema. -/
structure Store where
  users : List UserRow
  accounts : List AccountRow
  addresses : List AddressRow
  prefs : List PreferencesRow
  profiles : List ProfileRow
  deriving Repr, DecidableEq

/-- The error kinds the route handlers can signal (each corresponds to a
distinct response produced by a handler or by the router's error
middleware). -/
inductive ApiError where
  /-- `ER_DUP_ENTRY` translated by the error middleware to HTTP 409. -/
  | duplicateKey
  /-- `throw new Error('Failed to generate unique ID after multiple attempts')`. -/
  | identifierExhaustion
  /-- HTTP 404 `User not found`. -/
  | notFound
  /-- HTTP 400 `No valid fields to update`. -/
  | emptyPatch
  /-- HTTP 400 `Username and email are required` (pre-transaction check). -/
  | missingRequired
  /-- `throw new Error('Username and email are required for user: …')`
  raised inside the bulk transaction. -/
  | bulkItemInvalid
  /-- HTTP 400 `Users array is required`. -/
  | bulkEmpty
  deriving Repr, DecidableEq

/-- JS `v || d` for an optional string field: absent and the empty
string are falsy, everything else is kept. -/
def orDefaultStr (v : Option String) (d : String) : String :=
  match v with
  | none => d
  | some s => if s = "" then d else s

/-- JS `v || d` for an optional boolean field: absent and `false` are
falsy, so the stored value is `b || d`. -/
def orDefaultBool (v : Option Bool) (d : Bool) : Bool :=
  match v with
  | none => d
  | some b => b || d

/-! ## Identifier generation (`generateRandomId`, `isIdExists`, the
reservation do-while loop shared by `POST /users` and `POST /users/bulk`) -/

/-- `generateRandomId()` from `users.js`:
`Date.now() * 1000 + Math.floor(Math.random() * 1000)`.
`now` is the millisecond clock reading and `rand` the value of
`Math.floor(Math.random() * 1000)`, an integer in `[0, 1000)`. -/
def generateRandomId (now rand : Nat) : Nat :=
  now * 1000 + rand

/-- `isIdExists(connection, id)`:
`SELECT id FROM users WHERE id = ?` then `existing.length > 0`,
evaluated against the rows visible to the transactional session. -/
def isIdExists (users : List UserRow) (id : Nat) : Bool :=
  (users.filter (fun u => u.id = id)).length > 0

/-- `maxAttempts` constant of the reservation loops. -/
def maxAttempts : Nat := 10

/-- The body of the id-reservation do-while loop.  `gen i` is the value
produced by the `i`-th call to `generateRandomId` in this loop, and
`fuel` counts the existence checks still permitted: the JS loop throws
on its 11th iteration (when `attempts > maxAttempts`) before checking
existence, i.e. after exactly `maxAttempts` existence checks all came
back positive. -/
def reserveGo (gen : Nat → Nat) (users : List UserRow) :
    Nat → Nat → Except ApiError Nat
  | _, 0 => .error .identifierExhaustion
  | attempt, fuel + 1 =>
    let userId := gen attempt
    if isIdExists users userId then reserveGo gen users (attempt + 1) fuel
    else .ok userId

/-- The whole reservation loop: up to `maxAttempts` candidates are
checked, the first one absent from `users` is returned. -/
def reserveId (gen : Nat → Nat) (users : List UserRow) : Except ApiError Nat :=
  reserveGo gen users 0 maxAttempts

/-! ### Generic facts about the reservation loop -/

theorem reserveGo_all_taken (gen : Nat → Nat) (users : List UserRow) :
    ∀ fuel attempt, (∀ i, i < fuel → isIdExists users (gen (attempt + i)) = true) →
      reserveGo gen users attempt fuel = .error .identifierExhaustion := by
  intro fuel
  induction fuel with
  | zero => intro attempt _; rfl
  | succ n ih =>
    intro attempt h
    have h0 : isIdExists users (gen attempt) = true := by
      simpa using h 0 (Nat.succ_pos n)
    rw [reserveGo]
    simp only [h0, if_true]
    exact ih (attempt + 1) fun i hi => by
      have := h (i + 1) (Nat.succ_lt_succ hi)
      simpa [Nat.add_assoc, Nat.add_comm 1 i] using this

theorem reserveGo_first_free (gen : Nat → Nat) (users : List UserRow) :
    ∀ fuel attempt k, k < fuel →
      (∀ i, i < k → isIdExists users (gen (attempt + i)) = true) →
      isIdExists users (gen (attempt + k)) = false →
      reserveGo gen users attempt fuel = .ok (gen (attempt + k)) := by
  intro fuel
  induction fuel with
  | zero => intro attempt k hk; omega
  | succ n ih =>
    intro attempt k hk hprev hfree
    match k with
    | 0 =>
      rw [reserveGo]
      simp only [Nat.add_zero] at hfree
      simp [hfree]
    | k + 1 =>
      have h0 : isIdExists users (gen attempt) = true := by
        simpa using hprev 0 (Nat.succ_pos k)
      rw [reserveGo]
      simp only [h0, if_true]
      have := ih (attempt + 1) k (Nat.lt_of_succ_lt_succ hk)
        (fun i hi => by
          have := hprev (i + 1) (Nat.succ_lt_succ hi)
          simpa [Nat.add_assoc, Nat.add_comm 1 i] using this)
        (by simpa [Nat.add_assoc, Nat.add_comm 1 k] using hfree)
      simpa [Nat.add_assoc, Nat.add_comm 1 k] using this

/-- Only the first `fuel` candidates are ever examined. -/
theorem reserveGo_congr (gen gen' : Nat → Nat) (users : List UserRow) :
    ∀ fuel attempt, (∀ i, attempt ≤ i → i < attempt + fuel → gen i = gen' i) →
      reserveGo gen users attempt fuel = reserveGo gen' users attempt fuel := by
  intro fuel
  induction fuel with
  | zero => intro attempt _; rfl
  | succ n ih =>
    intro attempt h
    have h0 : gen attempt = gen' attempt :=
      h attempt (Nat.le_refl _) (by omega)
    rw [reserveGo, reserveGo, h0]
    by_cases hex : isIdExists users (gen' attempt) = true
    · simp only [hex, if_true]
      exact ih (attempt + 1) fun i h1 h2 => h i (by omega) (by omega)
    · simp [hex]

/-! ## `POST /users` — the aggregate writer (`createUser`) -/

/-- The `account` object of a `POST /users` body. -/
structure AccountInput where
  status : Option String
  role : Option String
  subscription : Option String
  deriving Repr, DecidableEq

/-- The `address` object of a `POST /users` body. -/
structure AddressInput where
  street : Option String
  city : Option String
  province : Option String
  postal_code : Option String
  country : Option String
  deriving Repr, DecidableEq

/-- The `preferences` object of a `POST /users` body. -/
structure PreferencesInput where
  language : Option String
  timezone : Option String
  notify_email : Option Bool
  notify_sms : Option Bool
  notify_push : Option Bool
  deriving Repr, DecidableEq

/-- The `profile` object of a `POST /users` body. -/
structure ProfileInput where
  avatar : Option String
  bio : Option String
  website : Option String
  instagram : Option String
  linkedin : Option String
  deriving Repr, DecidableEq

/-- A `POST /users` request body.  `username`/`email` use `""` for the
falsy values (absent or empty) that the `!username || !email` guard
rejects. -/
structure CreateUserInput where
  username : String
  email : String
  first_name : Option String
  last_name : Option String
  phone : Option String
  date_of_birth : Option String
  gender : Option String
  account : Option AccountInput
  address : Option AddressInput
  preferences : Option PreferencesInput
  profile : Option ProfileInput
  deriving Repr, DecidableEq

/-- The core row inserted by
`INSERT INTO users (id, username, email, first_name, last_name, phone,
date_of_birth, gender, created_at, updated_at) VALUES (…, NOW(), NOW())`. -/
def mkUserRow (inp : CreateUserInput) (uid now : Nat) : UserRow :=
  { id := uid, username := inp.username, email := inp.email,
    first_name := inp.first_name, last_name := inp.last_name,
    phone := inp.phone, date_of_birth := inp.date_of_birth,
    gender := inp.gender, created_at := now, updated_at := now }

/-- The `user_accounts` row inserted when an `account` payload is given
(`account.status || 'active'` etc.). -/
def mkAccountRow (uid : Nat) (a : AccountInput) : AccountRow :=
  { user_id := uid,
    status := orDefaultStr a.status "active",
    role := orDefaultStr a.role "user",
    subscription := orDefaultStr a.subscription "free" }

/-- The `user_addresses` row inserted when an `address` payload is given
(all columns passed through as provided, `NULL` for omitted). -/
def mkAddressRow (uid : Nat) (a : AddressInput) : AddressRow :=
  { user_id := uid, street := a.street, city := a.city,
    province := a.province, postal_code := a.postal_code,
    country := a.country }

/-- The `user_preferences` row inserted when a `preferences` payload is
given:
`preferences.language || 'en'`, `preferences.timezone || 'Asia/Jakarta'`,
`preferences.notify_email || 1`, `preferences.notify_sms || 0`,
`preferences.notify_push || 1`. -/
def mkPreferencesRow (uid : Nat) (p : PreferencesInput) : PreferencesRow :=
  { user_id := uid,
    language := orDefaultStr p.language "en",
    timezone := orDefaultStr p.timezone "Asia/Jakarta",
    notify_email := orDefaultBool p.notify_email true,
    notify_sms := orDefaultBool p.notify_sms false,
    notify_push := orDefaultBool p.notify_push true }

/-- The `user_profiles` row inserted when a `profile` payload is given. -/
def mkProfileRow (uid : Nat) (p : ProfileInput) : ProfileRow :=
  { user_id := uid, avatar := p.avatar, bio := p.bio,
    website := p.website, instagram := p.instagram, linkedin := p.linkedin }

/-- The schema constraint checked by MySQL on the core insert: `id` is
the primary key and `username`, `email` carry `UNIQUE` constraints, so
the insert raises `ER_DUP_ENTRY` exactly when one of the three collides
with an existing row. -/
def coreInsertConflict (users : List UserRow) (row : UserRow) : Bool :=
  users.any fun u => u.id = row.id || u.username = row.username || u.email = row.email

/-- `INSERT INTO users …` under the schema constraints. -/
def insertUserRow (st : Store) (row : UserRow) : Except ApiError Store :=
  if coreInsertConflict st.users row then .error .duplicateKey
  else .ok { st with users := st.users ++ [row] }

/-- The body of the `POST /users` transaction: reserve an identifier,
insert the core row, then conditionally insert each sub-record
(`if (account) { … }` etc.).  The sub-record inserts reference a freshly
inserted user and the sub-tables carry no uniqueness constraints, so
they cannot themselves violate a constraint. -/
def createUserTxn (st : Store) (inp : CreateUserInput) (gen : Nat → Nat)
    (now : Nat) : Except ApiError (Store × Nat) :=
  match reserveId gen st.users with
  | .error e => .error e
  | .ok uid =>
    match insertUserRow st (mkUserRow inp uid now) with
    | .error e => .error e
    | .ok st1 =>
      let st2 := match inp.account with
        | none => st1
        | some a => { st1 with accounts := st1.accounts ++ [mkAccountRow uid a] }
      let st3 := match inp.address with
        | none => st2
        | some a => { st2 with addresses := st2.addresses ++ [mkAddressRow uid a] }
      let st4 := match inp.preferences with
        | none => st3
        | some p => { st3 with prefs := st3.prefs ++ [mkPreferencesRow uid p] }
      let st5 := match inp.profile with
        | none => st4
        | some p => { st4 with profiles := st4.profiles ++ [mkProfileRow uid p] }
      .ok (st5, uid)

/-- The whole `POST /users` handler.  Returns the response (generated id
or error) together with the store as durably committed afterwards: the
`catch { rollback }` of the handler means an error leaves the store
unchanged. -/
def createUser (st : Store) (inp : CreateUserInput) (gen : Nat → Nat)
    (now : Nat) : Except ApiError Nat × Store :=
  if inp.username = "" || inp.email = "" then (.error .missingRequired, st)
  else
    match createUserTxn st inp gen now with
    | .error e => (.error e, st)
    | .ok (st', uid) => (.ok uid, st')

/-- The lists appended to each sub-table by a successful `createUser`. -/
def accountRowsOf (inp : CreateUserInput) (uid : Nat) : List AccountRow :=
  match inp.account with
  | none => []
  | some a => [mkAccountRow uid a]

def addressRowsOf (inp : CreateUserInput) (uid : Nat) : List AddressRow :=
  match inp.address with
  | none => []
  | some a => [mkAddressRow uid a]

def prefRowsOf (inp : CreateUserInput) (uid : Nat) : List PreferencesRow :=
  match inp.preferences with
  | none => []
  | some p => [mkPreferencesRow uid p]

def profileRowsOf (inp : CreateUserInput) (uid : Nat) : List ProfileRow :=
  match inp.profile with
  | none => []
  | some p => [mkProfileRow uid p]

theorem createUserTxn_ok_shape (st : Store) (inp : CreateUserInput)
    (gen : Nat → Nat) (now : Nat) (st' : Store) (uid : Nat)
    (h : createUserTxn st inp gen now = .ok (st', uid)) :
    st'.users = st.users ++ [mkUserRow inp uid now] ∧
    st'.accounts = st.accounts ++ accountRowsOf inp uid ∧
    st'.addresses = st.addresses ++ addressRowsOf inp uid ∧
    st'.prefs = st.prefs ++ prefRowsOf inp uid ∧
    st'.profiles = st.profiles ++ profileRowsOf inp uid := by
  unfold createUserTxn insertUserRow at h
  cases hres : reserveId gen st.users with
  | error e => rw [hres] at h; simp at h
  | ok uid0 =>
    rw [hres] at h
    dsimp only at h
    by_cases hc : coreInsertConflict st.users (mkUserRow inp uid0 now) = true
    · rw [if_pos hc] at h; simp at h
    · rw [if_neg hc] at h
      dsimp only at h
      cases ha : inp.account <;> cases hd : inp.address <;>
        cases hp : inp.preferences <;> cases hf : inp.profile <;>
        rw [ha, hd, hp, hf] at h <;>
        simp only [Except.ok.injEq, Prod.mk.injEq] at h <;>
        obtain ⟨h1, h2⟩ := h <;> subst h1 <;> subst h2 <;>
        simp [accountRowsOf, addressRowsOf, prefRowsOf, profileRowsOf,
          ha, hd, hp, hf]

theorem createUser_error_rollback (st : Store) (inp : CreateUserInput)
    (gen : Nat → Nat) (now : Nat) (e : ApiError)
    (h : (createUser st inp gen now).1 = .error e) :
    (createUser st inp gen now).2 = st := by
  unfold createUser at *
  by_cases hreq : (inp.username = "" || inp.email = "") = true
  · rw [if_pos hreq]
  · rw [if_neg hreq] at h ⊢
    cases htxn : createUserTxn st inp gen now with
    | error e' => rfl
    | ok p =>
      obtain ⟨st', uid'⟩ := p
      rw [htxn] at h
      simp at h

theorem createUser_ok_shape (st : Store) (inp : CreateUserInput)
    (gen : Nat → Nat) (now : Nat) (uid : Nat)
    (h : (createUser st inp gen now).1 = .ok uid) :
    (createUser st inp gen now).2.users = st.users ++ [mkUserRow inp uid now] ∧
    (createUser st inp gen now).2.accounts = st.accounts ++ accountRowsOf inp uid ∧
    (createUser st inp gen now).2.addresses = st.addresses ++ addressRowsOf inp uid ∧
    (createUser st inp gen now).2.prefs = st.prefs ++ prefRowsOf inp uid ∧
    (createUser st inp gen now).2.profiles = st.profiles ++ profileRowsOf inp uid := by
  unfold createUser at *
  by_cases hreq : (inp.username = "" || inp.email = "") = true
  · rw [if_pos hreq] at h; simp at h
  · rw [if_neg hreq] at h ⊢
    cases htxn : createUserTxn st inp gen now with
    | error e' => rw [htxn] at h; simp at h
    | ok p =>
      obtain ⟨st', uid'⟩ := p
      rw [htxn] at h
      dsimp only at h ⊢
      simp only [Except.ok.injEq] at h
      subst h
      exact createUserTxn_ok_shape st inp gen now st' _ htxn

/-- Whether the new row's `email` collides with an existing `users` row. -/
def emailTaken (users : List UserRow) (email : String) : Bool :=
  users.any fun u => u.email = email

/-- Whether the new row's `username` collides with an existing row. -/
def usernameTaken (users : List UserRow) (username : String) : Bool :=
  users.any fun u => u.username = username

theorem createUser_conflict (st : Store) (inp : CreateUserInput)
    (gen : Nat → Nat) (now : Nat)
    (hu : inp.username ≠ "") (he : inp.email ≠ "")
    (hfree : isIdExists st.users (gen 0) = false)
    (hconf : coreInsertConflict st.users (mkUserRow inp (gen 0) now) = true) :
    createUser st inp gen now = (.error .duplicateKey, st) := by
  have hres : reserveId gen st.users = .ok (gen 0) := by
    have := reserveGo_first_free gen st.users maxAttempts 0 0
      (by simp [maxAttempts]) (by intro i hi; omega) (by simpa using hfree)
    simpa [reserveId] using this
  unfold createUser
  rw [if_neg (by simp [hu, he])]
  unfold createUserTxn insertUserRow
  rw [hres]
  dsimp only
  rw [if_pos hconf]

theorem createUser_email_collision (st : Store) (inp : CreateUserInput)
    (gen : Nat → Nat) (now : Nat)
    (hu : inp.username ≠ "") (he : inp.email ≠ "")
    (hfree : isIdExists st.users (gen 0) = false)
    (hdup : emailTaken st.users inp.email = true) :
    createUser st inp gen now = (.error .duplicateKey, st) := by
  refine createUser_conflict st inp gen now hu he hfree ?_
  unfold coreInsertConflict
  unfold emailTaken at hdup
  rw [List.any_eq_true] at hdup ⊢
  obtain ⟨u, hmem, hue⟩ := hdup
  exact ⟨u, hmem, by simp [mkUserRow, hue]⟩

theorem createUser_username_collision (st : Store) (inp : CreateUserInput)
    (gen : Nat → Nat) (now : Nat)
    (hu : inp.username ≠ "") (he : inp.email ≠ "")
    (hfree : isIdExists st.users (gen 0) = false)
    (hdup : usernameTaken st.users inp.username = true) :
    createUser st inp gen now = (.error .duplicateKey, st) := by
  refine createUser_conflict st inp gen now hu he hfree ?_
  unfold coreInsertConflict
  unfold usernameTaken at hdup
  rw [List.any_eq_true] at hdup ⊢
  obtain ⟨u, hmem, hue⟩ := hdup
  exact ⟨u, hmem, by simp [mkUserRow, hue]⟩

/-! ## `GET /users/:id` — the aggregate reader (`getUser`) -/

/-- The composite view assembled by the handler:
`{ ...users[0], account: accounts[0] || null, … }`. -/
structure UserView where
  user : UserRow
  account : Option AccountRow
  address : Option AddressRow
  preferences : Option PreferencesRow
  profile : Option ProfileRow
  deriving Repr, DecidableEq

/-- The `GET /users/:id` handler: fetch the core row by primary key
(`users[0]` of `SELECT * FROM users WHERE id = ?`), 404 when absent,
otherwise fetch each sub-table by `user_id` and take the first row or
`null`. -/
def getUser (st : Store) (id : Nat) : Except ApiError UserView :=
  match st.users.find? (fun u => u.id = id) with
  | none => .error .notFound
  | some u =>
    .ok { user := u,
          account := st.accounts.find? (fun a => a.user_id = id),
          address := st.addresses.find? (fun a => a.user_id = id),
          preferences := st.prefs.find? (fun p => p.user_id = id),
          profile := st.profiles.find? (fun p => p.user_id = id) }

/-! ## `PATCH /users/:id` — the partial updater (`updateUser`) -/

/-- The whitelist of the `PATCH /users/:id` handler. -/
def userWhitelist : List String :=
  ["username", "email", "first_name", "last_name", "phone", "date_of_birth", "gender"]

/-- One `SET key = ?` assignment of the dynamic update statement.
Keys outside the whitelist are never pushed onto the statement, so the
default branch is unreachable for the filtered list; it leaves the row
unchanged. -/
def applyField (r : UserRow) (kv : String × String) : UserRow :=
  if kv.1 = "username" then { r with username := kv.2 }
  else if kv.1 = "email" then { r with email := kv.2 }
  else if kv.1 = "first_name" then { r with first_name := some kv.2 }
  else if kv.1 = "last_name" then { r with last_name := some kv.2 }
  else if kv.1 = "phone" then { r with phone := some kv.2 }
  else if kv.1 = "date_of_birth" then { r with date_of_birth := some kv.2 }
  else if kv.1 = "gender" then { r with gender := some kv.2 }
  else r

/-- The effect on one row of
`UPDATE users SET <fields>, updated_at = NOW() WHERE id = ?`
for the whitelisted fields of the patch. -/
def patchRow (r : UserRow) (updates : List (String × String)) (now : Nat) : UserRow :=
  { (updates.filter fun kv => userWhitelist.contains kv.1).foldl applyField r
      with updated_at := now }

/-- The `PATCH /users/:id` handler.  The patch is the request body as a
key/value list (a JS object, so keys are distinct in any actual
request).  Returns the response and the committed store. -/
def updateUser (st : Store) (id : Nat) (updates : List (String × String))
    (now : Nat) : Except ApiError Unit × Store :=
  if (st.users.filter fun u => u.id = id).length = 0 then
    (.error .notFound, st)
  else if (updates.filter fun kv => userWhitelist.contains kv.1).length = 0 then
    (.error .emptyPatch, st)
  else
    (.ok (),
     { st with users := st.users.map fun u =>
        if u.id = id then patchRow u updates now else u })

/-! ## `POST /users/bulk` — batched creation (`createUsersBulk`) -/

/-- One element of the `users` array of a bulk request: only
`username`, `email`, `first_name`, `last_name` are read. -/
structure BulkItem where
  username : String
  email : String
  first_name : Option String
  last_name : Option String
  deriving Repr, DecidableEq

/-- The core row inserted for one bulk item:
`INSERT INTO users (id, username, email, first_name, last_name,
created_at, updated_at) VALUES (…, NOW(), NOW())` — no phone, birth
date or gender columns. -/
def mkBulkRow (item : BulkItem) (uid now : Nat) : UserRow :=
  { id := uid, username := item.username, email := item.email,
    first_name := item.first_name, last_name := item.last_name,
    phone := none, date_of_birth := none, gender := none,
    created_at := now, updated_at := now }

/-- The body of the bulk transaction, processing the items in order.
`gen i` is the candidate stream used for the `i`-th item's reservation
loop; each item's existence checks see the rows already inserted by
earlier items of the same transaction. -/
def bulkGo (gen : Nat → Nat → Nat) (now : Nat) :
    Store → Nat → List BulkItem → Except ApiError (Store × List Nat)
  | st, _, [] => .ok (st, [])
  | st, i, item :: rest =>
    if item.username = "" || item.email = "" then .error .bulkItemInvalid
    else
      match reserveId (gen i) st.users with
      | .error e => .error e
      | .ok uid =>
        match insertUserRow st (mkBulkRow item uid now) with
        | .error e => .error e
        | .ok st' =>
          match bulkGo gen now st' (i + 1) rest with
          | .error e => .error e
          | .ok (stF, uids) => .ok (stF, uid :: uids)

/-- The whole `POST /users/bulk` handler: empty (or missing) array is
rejected before the transaction; otherwise the loop runs inside one
transaction, and the `catch { rollback }` makes any error leave the
store unchanged. -/
def createUsersBulk (st : Store) (items : List BulkItem)
    (gen : Nat → Nat → Nat) (now : Nat) : Except ApiError (List Nat) × Store :=
  if items.length = 0 then (.error .bulkEmpty, st)
  else
    match bulkGo gen now st 0 items with
    | .error e => (.error e, st)
    | .ok (st', uids) => (.ok uids, st')

theorem createUsersBulk_error_rollback (st : Store) (items : List BulkItem)
    (gen : Nat → Nat → Nat) (now : Nat) (e : ApiError)
    (h : (createUsersBulk st items gen now).1 = .error e) :
    (createUsersBulk st items gen now).2 = st := by
  unfold createUsersBulk at *
  by_cases hne : items.length = 0
  · rw [if_pos hne]
  · rw [if_neg hne] at h ⊢
    cases hgo : bulkGo gen now st 0 items with
    | error e' => rfl
    | ok p =>
      obtain ⟨st', uids⟩ := p
      rw [hgo] at h
      simp at h

theorem bulkGo_ok_shape (gen : Nat → Nat → Nat) (now : Nat) :
    ∀ (items : List BulkItem) (st : Store) (i : Nat) (st' : Store)
      (uids : List Nat), bulkGo gen now st i items = .ok (st', uids) →
      uids.length = items.length ∧
      st'.users = st.users ++ (items.zip uids).map (fun p => mkBulkRow p.1 p.2 now) ∧
      st'.accounts = st.accounts ∧ st'.addresses = st.addresses ∧
      st'.prefs = st.prefs ∧ st'.profiles = st.profiles := by
  intro items
  induction items with
  | nil =>
    intro st i st' uids h
    unfold bulkGo at h
    simp only [Except.ok.injEq, Prod.mk.injEq] at h
    obtain ⟨h1, h2⟩ := h
    subst h1; subst h2
    simp
  | cons item rest ih =>
    intro st i st' uids h
    unfold bulkGo at h
    by_cases hreq : (item.username = "" || item.email = "") = true
    · rw [if_pos hreq] at h; simp at h
    · rw [if_neg hreq] at h
      cases hres : reserveId (gen i) st.users with
      | error e => rw [hres] at h; simp at h
      | ok uid =>
        rw [hres] at h
        dsimp only at h
        unfold insertUserRow at h
        by_cases hc : coreInsertConflict st.users (mkBulkRow item uid now) = true
        · rw [if_pos hc] at h; simp at h
        · rw [if_neg hc] at h
          dsimp only at h
          cases hrest : bulkGo gen now
              { st with users := st.users ++ [mkBulkRow item uid now] }
              (i + 1) rest with
          | error e => rw [hrest] at h; simp at h
          | ok p =>
            obtain ⟨stF, uidsF⟩ := p
            rw [hrest] at h
            simp only [Except.ok.injEq, Prod.mk.injEq] at h
            obtain ⟨h1, h2⟩ := h
            subst h1; subst h2
            obtain ⟨hl, hu, ha, hd, hp, hf⟩ := ih _ (i + 1) stF uidsF hrest
            refine ⟨by simpa using hl, ?_, by simpa using ha,
              by simpa using hd, by simpa using hp, by simpa using hf⟩
            simp only [List.zip_cons_cons, List.map_cons] at *
            rw [hu]
            simp

/-- If some item of the batch has a missing (falsy) username or email,
the whole bulk call fails and commits nothing. -/
theorem bulkGo_invalid_item_fails (gen : Nat → Nat → Nat) (now : Nat) :
    ∀ (items : List BulkItem) (st : Store) (i : Nat),
      (∃ item ∈ items, item.username = "" ∨ item.email = "") →
      ∃ e, bulkGo gen now st i items = .error e := by
  intro items
  induction items with
  | nil => intro st i h; simp at h
  | cons item rest ih =>
    intro st i h
    unfold bulkGo
    by_cases hreq : (item.username = "" || item.email = "") = true
    · exact ⟨.bulkItemInvalid, by rw [if_pos hreq]⟩
    · rw [if_neg hreq]
      have hrest : ∃ x ∈ rest, x.username = "" ∨ x.email = "" := by
        obtain ⟨x, hx, hxe⟩ := h
        rcases List.mem_cons.mp hx with rfl | hx
        · exact absurd (by simpa [Bool.or_eq_true] using hxe) hreq
        · exact ⟨x, hx, hxe⟩
      cases hres : reserveId (gen i) st.users with
      | error e => exact ⟨e, rfl⟩
      | ok uid =>
        dsimp only
        cases hins : insertUserRow st (mkBulkRow item uid now) with
        | error e => exact ⟨e, rfl⟩
        | ok st' =>
          dsimp only
          obtain ⟨e, he⟩ := ih st' (i + 1) hrest
          exact ⟨e, by rw [he]⟩

/-! ## `GET /users/search` — the search query builder -/

/-- The optional criteria of `GET /users/search`.  An absent query
parameter is `none`. -/
structure SearchCriteria where
  q : Option String
  status : Option String
  role : Option String
  subscription : Option String
  city : Option String
  province : Option String
  deriving Repr, DecidableEq

/-- JS truthiness on a query parameter: `if (q) { … }` skips both an
absent parameter and the empty string. -/
def jsGiven (v : Option String) : Option String :=
  match v with
  | some "" => none
  | x => x

/-- One row of the joined result set
`users u LEFT JOIN user_accounts ua ON u.id = ua.user_id
LEFT JOIN user_addresses uad ON u.id = uad.user_id`. -/
structure SearchRow where
  user : UserRow
  account : Option AccountRow
  address : Option AddressRow
  deriving Repr, DecidableEq

/-- LEFT JOIN semantics for one side: every matching row, or a single
null row when none matches. -/
def leftMatches {α : Type} (l : List α) (p : α → Bool) : List (Option α) :=
  match l.filter p with
  | [] => [none]
  | ms => ms.map some

/-- The full joined result set of the two LEFT JOINs. -/
def searchJoin (st : Store) : List SearchRow :=
  st.users.flatMap fun u =>
    (leftMatches st.accounts fun a => a.user_id = u.id).flatMap fun acc =>
      (leftMatches st.addresses fun ad => ad.user_id = u.id).map fun addr =>
        { user := u, account := acc, address := addr }

/-- MySQL `col LIKE '%q%'` under the default case-insensitive
collation: case-insensitive substring containment. -/
def likeContains (s pat : String) : Bool :=
  decide ((pat.data.map Char.toLower) <:+: (s.data.map Char.toLower))

/-- `col LIKE ?` on a nullable column: `NULL LIKE x` is not true. -/
def optLike (v : Option String) (pat : String) : Bool :=
  match v with
  | none => false
  | some s => likeContains s pat

/-- `col = ?` on a nullable column: `NULL = x` is not true. -/
def optEqStr (v : Option String) (x : String) : Bool :=
  match v with
  | none => false
  | some s => s = x

/-- The WHERE clause built by the handler: `WHERE 1=1` plus one
conjunct per truthy criterion (`q` as a four-way OR of LIKEs over the
core columns, the rest as exact matches on the joined columns; a
missing joined row compares as NULL, never equal). -/
def matchesCriteria (c : SearchCriteria) (r : SearchRow) : Bool :=
  (match jsGiven c.q with
   | none => true
   | some q =>
     likeContains r.user.username q || likeContains r.user.email q ||
     optLike r.user.first_name q || optLike r.user.last_name q) &&
  (match jsGiven c.status with
   | none => true
   | some s => match r.account with
     | none => false
     | some a => a.status = s) &&
  (match jsGiven c.role with
   | none => true
   | some s => match r.account with
     | none => false
     | some a => a.role = s) &&
  (match jsGiven c.subscription with
   | none => true
   | some s => match r.account with
     | none => false
     | some a => a.subscription = s) &&
  (match jsGiven c.city with
   | none => true
   | some s => match r.address with
     | none => false
     | some a => optEqStr a.city s) &&
  (match jsGiven c.province with
   | none => true
   | some s => match r.address with
     | none => false
     | some a => optEqStr a.province s)

/-- The joined rows satisfying the WHERE clause — shared verbatim by
the count query (built by string replacement on the same statement,
before `ORDER BY`/`LIMIT` are appended) and the page query. -/
def searchFiltered (st : Store) (c : SearchCriteria) : List SearchRow :=
  (searchJoin st).filter (matchesCriteria c)

/-- `SELECT COUNT(DISTINCT u.id)` over the filtered join. -/
def searchTotal (st : Store) (c : SearchCriteria) : Nat :=
  ((searchFiltered st c).map fun r => r.user.id).dedup.length

/-- `ORDER BY u.created_at DESC`: later-created rows first. -/
def searchDescRel (x y : SearchRow) : Prop :=
  y.user.created_at ≤ x.user.created_at

instance : DecidableRel searchDescRel := fun x y =>
  inferInstanceAs (Decidable (y.user.created_at ≤ x.user.created_at))

instance : IsTotal SearchRow searchDescRel :=
  ⟨fun a b => by unfold searchDescRel; exact Nat.le_total _ _⟩

instance : IsTrans SearchRow searchDescRel :=
  ⟨fun _ _ _ hab hbc => by
    unfold searchDescRel at *; exact Nat.le_trans hbc hab⟩

/-- The result of `GET /users/search`: the page of rows and the
`pagination.total` field. -/
structure SearchResult where
  rows : List SearchRow
  total : Nat
  deriving Repr, DecidableEq

/-- The `GET /users/search` handler for an already-parsed `limit` and
`offset`: run the count query on the shared WHERE clause, then append
`ORDER BY u.created_at DESC LIMIT ? OFFSET ?` and run the page query. -/
def searchExec (st : Store) (c : SearchCriteria) (limit offset : Nat) :
    SearchResult :=
  { rows := ((List.insertionSort searchDescRel (searchFiltered st c)).drop
      offset).take limit,
    total := searchTotal st c }

/-! ## Pagination parsing

`GET /users/search` uses `parseInt(req.query.page) || 1` and
`parseInt(req.query.limit) || 10`; `GET /users` validates with
`!isNaN(v) && v > 0` (and additionally `v <= 100` for the limit).
An absent or non-numeric parameter is `none`. -/

/-- `parseInt(v) || d`: `NaN` (absent / non-numeric) and `0` are falsy
and fall back to `d`; every other integer — negative ones included —
is kept. -/
def parseIntOr (v : Option Int) (d : Int) : Int :=
  match v with
  | none => d
  | some x => if x = 0 then d else x

/-- Effective page of `GET /users/search`. -/
def searchPage (v : Option Int) : Int := parseIntOr v 1

/-- Effective limit of `GET /users/search`. -/
def searchLimit (v : Option Int) : Int := parseIntOr v 10

/-- `offset = (page - 1) * limit` of `GET /users/search`. -/
def searchOffset (p l : Option Int) : Int :=
  (searchPage p - 1) * searchLimit l

/-- Effective page of `GET /users`: kept only when a number strictly
greater than zero was supplied. -/
def listUsersPage (v : Option Int) : Int :=
  match v with
  | none => 1
  | some x => if 0 < x then x else 1

/-- Effective limit of `GET /users`: kept only when a number in
`(0, 100]` was supplied; anything else — including values above 100 —
falls back to the default 10. -/
def listUsersLimit (v : Option Int) : Int :=
  match v with
  | none => 10
  | some x => if 0 < x ∧ x ≤ 100 then x else 10

/-- `offset = (page - 1) * limit` of `GET /users`. -/
def listUsersOffset (p l : Option Int) : Int :=
  (listUsersPage p - 1) * listUsersLimit l

/-! ### Field-level behaviour of the dynamic UPDATE statement -/

theorem foldl_applyField_proj {α : Type} (proj : UserRow → α) (k : String)
    (hstep : ∀ r kv, kv.1 ≠ k → proj (applyField r kv) = proj r) :
    ∀ (fields : List (String × String)), (∀ kv ∈ fields, kv.1 ≠ k) →
      ∀ r, proj (fields.foldl applyField r) = proj r := by
  intro fields
  induction fields with
  | nil => intro _ r; rfl
  | cons kv rest ih =>
    intro h r
    simp only [List.foldl_cons]
    rw [ih (fun x hx => h x (List.mem_cons_of_mem _ hx)) _,
      hstep r kv (h kv (List.mem_cons_self _ _))]

theorem foldl_applyField_set {α : Type} (proj : UserRow → α) (k : String)
    (set : String → α)
    (hset : ∀ r v, proj (applyField r (k, v)) = set v)
    (hstep : ∀ r kv, kv.1 ≠ k → proj (applyField r kv) = proj r) :
    ∀ (fields : List (String × String)), (fields.map Prod.fst).Nodup →
      ∀ v, (k, v) ∈ fields → ∀ r, proj (fields.foldl applyField r) = set v := by
  intro fields
  induction fields with
  | nil => intro _ v hv; simp at hv
  | cons kv rest ih =>
    intro hnd v hv r
    simp only [List.map_cons, List.nodup_cons] at hnd
    obtain ⟨hk, hnd'⟩ := hnd
    simp only [List.foldl_cons]
    rcases List.mem_cons.mp hv with heq | hv'
    · subst heq
      simp only at hk
      have hrest : ∀ x ∈ rest, x.1 ≠ k := by
        intro x hx he
        apply hk
        rw [← he]
        exact List.mem_map_of_mem Prod.fst hx
      rw [foldl_applyField_proj proj k hstep rest hrest]
      exact hset r v
    · exact ih hnd' v hv' _

theorem applyField_ne_username (r : UserRow) (kv : String × String)
    (h : kv.1 ≠ "username") : (applyField r kv).username = r.username := by
  unfold applyField; split_ifs <;> simp_all

theorem applyField_ne_email (r : UserRow) (kv : String × String)
    (h : kv.1 ≠ "email") : (applyField r kv).email = r.email := by
  unfold applyField; split_ifs <;> simp_all

theorem applyField_ne_first_name (r : UserRow) (kv : String × String)
    (h : kv.1 ≠ "first_name") : (applyField r kv).first_name = r.first_name := by
  unfold applyField; split_ifs <;> simp_all

theorem applyField_ne_last_name (r : UserRow) (kv : String × String)
    (h : kv.1 ≠ "last_name") : (applyField r kv).last_name = r.last_name := by
  unfold applyField; split_ifs <;> simp_all

theorem applyField_ne_phone (r : UserRow) (kv : String × String)
    (h : kv.1 ≠ "phone") : (applyField r kv).phone = r.phone := by
  unfold applyField; split_ifs <;> simp_all

theorem applyField_ne_dob (r : UserRow) (kv : String × String)
    (h : kv.1 ≠ "date_of_birth") :
    (applyField r kv).date_of_birth = r.date_of_birth := by
  unfold applyField; split_ifs <;> simp_all

theorem applyField_ne_gender (r : UserRow) (kv : String × String)
    (h : kv.1 ≠ "gender") : (applyField r kv).gender = r.gender := by
  unfold applyField; split_ifs <;> simp_all

theorem applyField_id (r : UserRow) (kv : String × String) :
    (applyField r kv).id = r.id := by
  unfold applyField; split_ifs <;> rfl

theorem applyField_created_at (r : UserRow) (kv : String × String) :
    (applyField r kv).created_at = r.created_at := by
  unfold applyField; split_ifs <;> rfl

theorem applyField_set_username (r : UserRow) (v : String) :
    (applyField r ("username", v)).username = v := by
  unfold applyField; simp

/-- The whitelist filter is idempotent, so filtering the patch down to
the whitelisted keys does not change the handler's behaviour. -/
theorem updateUser_ignores_unknown_keys (st : Store) (id : Nat)
    (updates : List (String × String)) (now : Nat) :
    updateUser st id updates now =
      updateUser st id (updates.filter fun kv => userWhitelist.contains kv.1)
        now := by
  have hidem : ((updates.filter fun kv => userWhitelist.contains kv.1).filter
      fun kv => userWhitelist.contains kv.1) =
      updates.filter fun kv => userWhitelist.contains kv.1 := by
    rw [List.filter_filter]
    simp
  unfold updateUser patchRow
  rw [hidem]

/-! ## Concrete fixtures used by witnesses and counterexamples -/

/-- A minimal concrete core row. -/
def demoUser : UserRow :=
  { id := 1, username := "budi", email := "budi@example.com",
    first_name := none, last_name := none, phone := none,
    date_of_birth := none, gender := none, created_at := 5, updated_at := 5 }

def demoAccount : AccountRow :=
  { user_id := 1, status := "active", role := "user", subscription := "free" }

def demoStore : Store := ⟨[demoUser], [demoAccount], [], [], []⟩

def emptyStore : Store := ⟨[], [], [], [], []⟩

/-- A store whose users occupy ids `0..9`, so that the identity
candidate stream finds every candidate taken. -/
def fullStore10 : Store :=
  ⟨(List.range 10).map fun i =>
    { id := i, username := "u", email := "e", first_name := none,
      last_name := none, phone := none, date_of_birth := none,
      gender := none, created_at := 0, updated_at := 0 }, [], [], [], []⟩

def demoCreateInput : CreateUserInput :=
  { username := "alice", email := "alice@example.com", first_name := none,
    last_name := none, phone := none, date_of_birth := none, gender := none,
    account := none, address := none, preferences := none, profile := none }

/-! ## The claims -/

/-- **C10.** Every candidate produced by `generateRandomId` at
millisecond timestamp `t` lies in `[t*1000, t*1000 + 999]`; a call at a
strictly larger millisecond timestamp produces a strictly larger
candidate; and two calls in the same millisecond coincide exactly when
their random offsets coincide. -/
theorem generateRandomId_range_and_monotone (t r t' r' s s' : Nat)
    (hr : r < 1000) (hr' : r' < 1000) :
    (t * 1000 ≤ generateRandomId t r ∧ generateRandomId t r ≤ t * 1000 + 999) ∧
    (t < t' → generateRandomId t r < generateRandomId t' r') ∧
    (generateRandomId t s = generateRandomId t s' ↔ s = s') := by
  unfold generateRandomId
  refine ⟨⟨by omega, by omega⟩, fun h => ?_, by omega⟩
  have h1 : t * 1000 + 1000 ≤ t' * 1000 := by nlinarith
  omega

theorem generateRandomId_range_and_monotone_witness :
    (1 * 1000 ≤ generateRandomId 1 5 ∧ generateRandomId 1 5 ≤ 1 * 1000 + 999) ∧
    (1 < 2 → generateRandomId 1 5 < generateRandomId 2 0) ∧
    (generateRandomId 1 3 = generateRandomId 1 4 ↔ (3 : Nat) = 4) :=
  generateRandomId_range_and_monotone 1 5 2 0 3 4 (by decide) (by decide)

/-- **C2.** The reservation loop checks candidates through the
transactional session's view of `users`, returns the first candidate
found absent, fails with identifier exhaustion after its bound of
`maxAttempts = 10` existence checks when every candidate is taken
(examining only the first 10 candidates), and such a failure aborts the
enclosing `createUser` transaction, leaving the store unchanged. -/
theorem reserveId_bounded (gen gen' : Nat → Nat) (users : List UserRow)
    (k : Nat) (st : Store) (inp : CreateUserInput) (now : Nat) :
    ((∀ i, i < maxAttempts → isIdExists users (gen i) = true) →
      reserveId gen users = .error .identifierExhaustion) ∧
    (k < maxAttempts → (∀ i, i < k → isIdExists users (gen i) = true) →
      isIdExists users (gen k) = false → reserveId gen users = .ok (gen k)) ∧
    ((∀ i, i < maxAttempts → gen i = gen' i) →
      reserveId gen users = reserveId gen' users) ∧
    (inp.username ≠ "" → inp.email ≠ "" →
      reserveId gen st.users = .error .identifierExhaustion →
      createUser st inp gen now = (.error .identifierExhaustion, st)) := by
  refine ⟨fun h => ?_, fun hk hprev hfree => ?_, fun hagree => ?_,
    fun hu he hres => ?_⟩
  · exact reserveGo_all_taken gen users maxAttempts 0
      (fun i hi => by simpa using h i hi)
  · simpa using reserveGo_first_free gen users maxAttempts 0 k hk
      (fun i hi => by simpa using hprev i hi) (by simpa using hfree)
  · exact reserveGo_congr gen gen' users maxAttempts 0
      (fun i h1 h2 => hagree i (by omega))
  · unfold createUser
    rw [if_neg (by simp [hu, he])]
    unfold createUserTxn
    rw [hres]

theorem reserveId_bounded_witness :
    reserveId (fun i => i) fullStore10.users = .error .identifierExhaustion ∧
    reserveId (fun i => i) [] = .ok 0 :=
  ⟨(reserveId_bounded (fun i => i) (fun i => i) fullStore10.users 0
      emptyStore demoCreateInput 0).1 (by decide),
   (reserveId_bounded (fun i => i) (fun i => i) [] 0 emptyStore
      demoCreateInput 0).2.1 (by decide) (fun i hi => by omega) (by decide)⟩

/-- **C7 counterexample.** The claim fails on the code: in the search
endpoint a negative `page` is used as-is (`parseInt(page) || 1` only
catches `NaN` and `0`), `limit` is not clamped at 100, and in the list
endpoint a `limit` above 100 falls back to the default 10 rather than
being clamped to 100. -/
theorem pagination_claim_false :
    searchPage (some (-1)) = -1 ∧ ¬searchPage (some (-1)) = 1 ∧
    searchLimit (some 200) = 200 ∧ ¬searchLimit (some 200) = 100 ∧
    listUsersLimit (some 200) = 10 ∧ ¬listUsersLimit (some 200) = 100 := by
  decide

/-- **C7 (amended).** In the search endpoint `page` and `limit` fall
back to 1 and 10 exactly when the parameter is absent/non-numeric or
zero, every other integer (negative or above 100 included) being used
as-is; in the list endpoint `page` is the given value when positive and
1 otherwise, and `limit` is the given value when in `(0, 100]` and the
default 10 otherwise; both endpoints use `offset = (page − 1) × limit`. -/
theorem pagination_effective (x : Int) (p l : Option Int) :
    (searchPage none = 1 ∧ searchLimit none = 10 ∧
     listUsersPage none = 1 ∧ listUsersLimit none = 10) ∧
    (searchPage (some 0) = 1 ∧ searchLimit (some 0) = 10) ∧
    (x ≠ 0 → searchPage (some x) = x ∧ searchLimit (some x) = x) ∧
    (0 < x → listUsersPage (some x) = x) ∧
    (x ≤ 0 → listUsersPage (some x) = 1) ∧
    (0 < x → x ≤ 100 → listUsersLimit (some x) = x) ∧
    (¬(0 < x ∧ x ≤ 100) → listUsersLimit (some x) = 10) ∧
    searchOffset p l = (searchPage p - 1) * searchLimit l ∧
    listUsersOffset p l = (listUsersPage p - 1) * listUsersLimit l := by
  unfold searchOffset listUsersOffset searchPage searchLimit listUsersPage
    listUsersLimit parseIntOr
  refine ⟨⟨rfl, rfl, rfl, rfl⟩, ⟨by simp, by simp⟩, fun hx => ⟨?_, ?_⟩,
    fun hx => ?_, fun hx => ?_, fun h1 h2 => ?_, fun hx => ?_, rfl, rfl⟩ <;>
    simp_all

theorem pagination_effective_witness :
    searchPage (some 7) = 7 ∧ searchLimit (some 7) = 7 ∧
    listUsersPage (some (-3)) = 1 ∧ listUsersLimit (some 100) = 100 :=
  ⟨((pagination_effective 7 none none).2.2.1 (by decide)).1,
   ((pagination_effective 7 none none).2.2.1 (by decide)).2,
   (pagination_effective (-3) none none).2.2.2.2.1 (by decide),
   (pagination_effective 100 none none).2.2.2.2.2.1 (by decide) (by decide)⟩

theorem find?_by_id_none {α : Type} (l : List α) (f : α → Nat) (id : Nat) :
    (l.find? fun a => f a = id) = none ↔ ∀ x ∈ l, f x ≠ id := by
  rw [List.find?_eq_none]
  simp

theorem find?_by_id_some {α : Type} (l : List α) (f : α → Nat) (id : Nat)
    (a : α) (h : (l.find? fun a => f a = id) = some a) :
    a ∈ l ∧ f a = id := by
  refine ⟨List.mem_of_find?_eq_some h, ?_⟩
  have := List.find?_some h
  simpa using this

/-- **C6.** `getUser` signals `NotFound` exactly when no core row has
the requested id; otherwise the view's core row is the matching `users`
row, and each sub-record slot is `none` exactly when no row of that
table references the id, and otherwise holds an actual matching row of
that table — never a placeholder. -/
theorem getUser_spec (st : Store) (id : Nat) (v : UserView)
    (a : AccountRow) (ad : AddressRow) (p : PreferencesRow) (pr : ProfileRow) :
    (getUser st id = .error .notFound ↔ ∀ u ∈ st.users, u.id ≠ id) ∧
    (getUser st id = .ok v →
      (v.user ∈ st.users ∧ v.user.id = id) ∧
      (v.account = none ↔ ∀ x ∈ st.accounts, x.user_id ≠ id) ∧
      (v.account = some a → a ∈ st.accounts ∧ a.user_id = id) ∧
      (v.address = none ↔ ∀ x ∈ st.addresses, x.user_id ≠ id) ∧
      (v.address = some ad → ad ∈ st.addresses ∧ ad.user_id = id) ∧
      (v.preferences = none ↔ ∀ x ∈ st.prefs, x.user_id ≠ id) ∧
      (v.preferences = some p → p ∈ st.prefs ∧ p.user_id = id) ∧
      (v.profile = none ↔ ∀ x ∈ st.profiles, x.user_id ≠ id) ∧
      (v.profile = some pr → pr ∈ st.profiles ∧ pr.user_id = id)) := by
  constructor
  · unfold getUser
    cases hf : st.users.find? fun u => u.id = id with
    | none =>
      exact ⟨fun _ => (find?_by_id_none st.users (fun u => u.id) id).mp hf,
        fun _ => rfl⟩
    | some u =>
      constructor
      · intro h; simp at h
      · intro h
        obtain ⟨hu, hid⟩ := find?_by_id_some st.users (fun u => u.id) id u hf
        exact absurd hid (h u hu)
  · intro hok
    unfold getUser at hok
    cases hf : st.users.find? fun u => u.id = id with
    | none => rw [hf] at hok; simp at hok
    | some u =>
      rw [hf] at hok
      simp only [Except.ok.injEq] at hok
      subst hok
      refine ⟨find?_by_id_some st.users (fun u => u.id) id u hf, ?_, ?_, ?_, ?_,
        ?_, ?_, ?_, ?_⟩
      · exact find?_by_id_none st.accounts (fun x => x.user_id) id
      · exact fun h => find?_by_id_some st.accounts (fun x => x.user_id) id a h
      · exact find?_by_id_none st.addresses (fun x => x.user_id) id
      · exact fun h => find?_by_id_some st.addresses (fun x => x.user_id) id ad h
      · exact find?_by_id_none st.prefs (fun x => x.user_id) id
      · exact fun h => find?_by_id_some st.prefs (fun x => x.user_id) id p h
      · exact find?_by_id_none st.profiles (fun x => x.user_id) id
      · exact fun h => find?_by_id_some st.profiles (fun x => x.user_id) id pr h

/-- A demo view for the `getUser` witness. -/
def demoView : UserView :=
  { user := demoUser, account := some demoAccount, address := none,
    preferences := none, profile := none }

theorem getUser_spec_witness :
    (getUser demoStore 1 = .ok demoView) ∧
    (demoView.account = some demoAccount →
      demoAccount ∈ demoStore.accounts ∧ demoAccount.user_id = 1) :=
  ⟨rfl,
   fun h => ((getUser_spec demoStore 1 demoView demoAccount
      ⟨1, none, none, none, none, none⟩ ⟨1, "", "", true, true, true⟩
      ⟨1, none, none, none, none, none⟩).2 rfl).2.2.1 h⟩

theorem foldl_applyField_const {α : Type} (proj : UserRow → α)
    (hstep : ∀ r kv, proj (applyField r kv) = proj r) :
    ∀ (fields : List (String × String)) (r : UserRow),
      proj (fields.foldl applyField r) = proj r := by
  intro fields
  induction fields with
  | nil => intro r; rfl
  | cons kv rest ih =>
    intro r
    simp only [List.foldl_cons]
    rw [ih _, hstep r kv]

/-- **C5.** `updateUser` applies exactly the whitelisted patch fields
(any other key is ignored without error: filtering the patch to the
whitelist first does not change the outcome), fails with `NotFound`
when no row matches, fails with `EmptyPatch` when no whitelisted field
remains, and on success updates only the matching row — refreshing the
modification timestamp in the same statement, leaving every
non-patched field (and `id`, `created_at`, every other table)
unchanged, and storing a provided whitelisted field as given. -/
theorem updateUser_spec (st : Store) (id : Nat)
    (updates : List (String × String)) (now : Nat) (u : UserRow) (v : String) :
    (updateUser st id updates now =
      updateUser st id (updates.filter fun kv => userWhitelist.contains kv.1) now) ∧
    ((∀ w ∈ st.users, w.id ≠ id) →
      updateUser st id updates now = (.error .notFound, st)) ∧
    (u ∈ st.users → u.id = id →
      (updates.filter fun kv => userWhitelist.contains kv.1) = [] →
      updateUser st id updates now = (.error .emptyPatch, st)) ∧
    (u ∈ st.users → u.id = id →
      (updates.filter fun kv => userWhitelist.contains kv.1) ≠ [] →
      (updateUser st id updates now).1 = .ok () ∧
      (updateUser st id updates now).2.users =
        (st.users.map fun w => if w.id = id then patchRow w updates now else w) ∧
      (updateUser st id updates now).2.accounts = st.accounts ∧
      (updateUser st id updates now).2.addresses = st.addresses ∧
      (updateUser st id updates now).2.prefs = st.prefs ∧
      (updateUser st id updates now).2.profiles = st.profiles) ∧
    ((patchRow u updates now).updated_at = now ∧
     (patchRow u updates now).id = u.id ∧
     (patchRow u updates now).created_at = u.created_at) ∧
    ((∀ kv ∈ updates, kv.1 ≠ "username") →
      (patchRow u updates now).username = u.username) ∧
    ((∀ kv ∈ updates, kv.1 ≠ "email") →
      (patchRow u updates now).email = u.email) ∧
    ((∀ kv ∈ updates, kv.1 ≠ "first_name") →
      (patchRow u updates now).first_name = u.first_name) ∧
    ((∀ kv ∈ updates, kv.1 ≠ "last_name") →
      (patchRow u updates now).last_name = u.last_name) ∧
    ((∀ kv ∈ updates, kv.1 ≠ "phone") →
      (patchRow u updates now).phone = u.phone) ∧
    ((∀ kv ∈ updates, kv.1 ≠ "date_of_birth") →
      (patchRow u updates now).date_of_birth = u.date_of_birth) ∧
    ((∀ kv ∈ updates, kv.1 ≠ "gender") →
      (patchRow u updates now).gender = u.gender) ∧
    ((updates.map Prod.fst).Nodup → ("username", v) ∈ updates →
      (patchRow u updates now).username = v) := by
  refine ⟨updateUser_ignores_unknown_keys st id updates now, ?_, ?_, ?_,
    ⟨rfl, ?_, ?_⟩, ?_, ?_, ?_, ?_, ?_, ?_, ?_, ?_⟩
  · intro h
    have hfil : (st.users.filter fun w => w.id = id) = [] := by
      rw [List.filter_eq_nil_iff]
      intro w hw
      simp [h w hw]
    unfold updateUser
    rw [hfil]
    simp
  · intro hu hid hF
    have hpos : 0 < (st.users.filter fun w => w.id = id).length :=
      List.length_pos.mpr (List.ne_nil_of_mem
        (List.mem_filter.mpr ⟨hu, by simp [hid]⟩))
    unfold updateUser
    rw [if_neg (by omega), hF]
    simp
  · intro hu hid hF
    have hpos : 0 < (st.users.filter fun w => w.id = id).length :=
      List.length_pos.mpr (List.ne_nil_of_mem
        (List.mem_filter.mpr ⟨hu, by simp [hid]⟩))
    have hFpos : 0 <
        (updates.filter fun kv => userWhitelist.contains kv.1).length :=
      List.length_pos.mpr hF
    unfold updateUser
    rw [if_neg (by omega), if_neg (by omega)]
    exact ⟨rfl, rfl, rfl, rfl, rfl, rfl⟩
  · exact foldl_applyField_const (fun r => r.id) applyField_id _ u
  · exact foldl_applyField_const (fun r => r.created_at) applyField_created_at _ u
  · intro h
    exact foldl_applyField_proj (fun r => r.username) "username"
      applyField_ne_username _
      (fun kv hkv => h kv (List.mem_filter.mp hkv).1) u
  · intro h
    exact foldl_applyField_proj (fun r => r.email) "email"
      applyField_ne_email _
      (fun kv hkv => h kv (List.mem_filter.mp hkv).1) u
  · intro h
    exact foldl_applyField_proj (fun r => r.first_name) "first_name"
      applyField_ne_first_name _
      (fun kv hkv => h kv (List.mem_filter.mp hkv).1) u
  · intro h
    exact foldl_applyField_proj (fun r => r.last_name) "last_name"
      applyField_ne_last_name _
      (fun kv hkv => h kv (List.mem_filter.mp hkv).1) u
  · intro h
    exact foldl_applyField_proj (fun r => r.phone) "phone"
      applyField_ne_phone _
      (fun kv hkv => h kv (List.mem_filter.mp hkv).1) u
  · intro h
    exact foldl_applyField_proj (fun r => r.date_of_birth) "date_of_birth"
      applyField_ne_dob _
      (fun kv hkv => h kv (List.mem_filter.mp hkv).1) u
  · intro h
    exact foldl_applyField_proj (fun r => r.gender) "gender"
      applyField_ne_gender _
      (fun kv hkv => h kv (List.mem_filter.mp hkv).1) u
  · intro hnd hv
    have hsub : ((updates.filter fun kv =>
        userWhitelist.contains kv.1).map Prod.fst).Sublist
        (updates.map Prod.fst) :=
      (List.filter_sublist updates).map Prod.fst
    have hndF := List.Nodup.sublist hsub hnd
    have hvF : ("username", v) ∈
        updates.filter fun kv => userWhitelist.contains kv.1 :=
      List.mem_filter.mpr ⟨hv, by simp [userWhitelist]⟩
    exact foldl_applyField_set (fun r => r.username) "username" (fun w => w)
      applyField_set_username applyField_ne_username _ hndF v hvF u

theorem updateUser_spec_witness :
    updateUser demoStore 1 [("username", "newname"), ("unknownField", "1")] 9 =
      updateUser demoStore 1 [("username", "newname")] 9 ∧
    (patchRow demoUser [("username", "newname"), ("unknownField", "1")] 9).username =
      "newname" ∧
    (patchRow demoUser [("username", "newname"), ("unknownField", "1")] 9).email =
      demoUser.email ∧
    (patchRow demoUser [("username", "newname"), ("unknownField", "1")] 9).updated_at =
      9 := by
  have h := updateUser_spec demoStore 1
    [("username", "newname"), ("unknownField", "1")] 9 demoUser "newname"
  refine ⟨?_, h.2.2.2.2.2.2.2.2.2.2.2.2 (by decide) (by decide),
    h.2.2.2.2.2.2.1 (by decide), h.2.2.2.2.1.1⟩
  have := h.1
  simpa [userWhitelist] using this

/-- **C1.** `createUser` is all-or-nothing: any failing step (an
identifier-exhaustion, a uniqueness violation on the core insert, …)
rolls the transaction back, leaving every one of the five tables
exactly as before; on success the core row and exactly the provided
sub-records are committed together; and a colliding email (with a free
first identifier candidate, so that reservation itself succeeds)
surfaces as `DuplicateKey` with nothing committed. -/
theorem createUser_all_or_nothing (st : Store) (inp : CreateUserInput)
    (gen : Nat → Nat) (now : Nat) (e : ApiError) (uid : Nat) :
    ((createUser st inp gen now).1 = .error e →
      (createUser st inp gen now).2 = st) ∧
    ((createUser st inp gen now).1 = .ok uid →
      (createUser st inp gen now).2.users = st.users ++ [mkUserRow inp uid now] ∧
      (createUser st inp gen now).2.accounts = st.accounts ++ accountRowsOf inp uid ∧
      (createUser st inp gen now).2.addresses = st.addresses ++ addressRowsOf inp uid ∧
      (createUser st inp gen now).2.prefs = st.prefs ++ prefRowsOf inp uid ∧
      (createUser st inp gen now).2.profiles = st.profiles ++ profileRowsOf inp uid) ∧
    (inp.username ≠ "" → inp.email ≠ "" →
      isIdExists st.users (gen 0) = false →
      emailTaken st.users inp.email = true →
      createUser st inp gen now = (.error .duplicateKey, st)) ∧
    (inp.username ≠ "" → inp.email ≠ "" →
      isIdExists st.users (gen 0) = false →
      usernameTaken st.users inp.username = true →
      createUser st inp gen now = (.error .duplicateKey, st)) :=
  ⟨createUser_error_rollback st inp gen now e,
   createUser_ok_shape st inp gen now uid,
   createUser_email_collision st inp gen now,
   createUser_username_collision st inp gen now⟩

/-- A `createUser` input whose email collides with `demoUser`'s. -/
def dupEmailInput : CreateUserInput :=
  { demoCreateInput with email := "budi@example.com" }

theorem createUser_all_or_nothing_witness :
    createUser demoStore dupEmailInput (fun _ => 99) 0 =
      (.error .duplicateKey, demoStore) :=
  (createUser_all_or_nothing demoStore dupEmailInput (fun _ => 99) 0
    .duplicateKey 0).2.2.1 (by decide) (by decide) (by decide) (by decide)

/-- **C4 counterexample.** The claim "fields that are explicitly
provided — including explicitly false notification flags — are stored
as given" fails: the handler inserts `preferences.notify_email || 1`,
so a preferences payload explicitly setting `notify_email: false` is
stored with `notify_email = true`. -/
def cexPrefsInput : PreferencesInput :=
  { language := none, timezone := none, notify_email := some false,
    notify_sms := none, notify_push := some false }

def cexCreateInput : CreateUserInput :=
  { username := "alice", email := "alice@example.com", first_name := none,
    last_name := none, phone := none, date_of_birth := none, gender := none,
    account := none, address := none, preferences := some cexPrefsInput,
    profile := none }

theorem subRecordDefaults_claim_false :
    cexPrefsInput.notify_email = some false ∧
    ((createUser emptyStore cexCreateInput (fun _ => 7) 0).2.prefs.map
      fun r => r.notify_email) = [true] := by
  decide

/-- **C4 (amended).** When a sub-record payload is present, omitted
fields get the documented defaults (account `active`/`user`/`free`;
preferences language `en`, timezone `Asia/Jakarta`, notification flags
`true`/`false`/`true`), and provided *truthy* values are stored as
given — but the `|| default` idiom also replaces provided falsy values,
so with a preferences payload the stored `notify_email` and
`notify_push` are always `true` (an explicit `false` is overridden) and
only `notify_sms` stores exactly the provided flag; an omitted payload
stores no row at all. -/
theorem subRecordDefaults (st : Store) (inp : CreateUserInput)
    (gen : Nat → Nat) (now uid : Nat) (a : AccountInput)
    (p : PreferencesInput) (s : String) :
    ((createUser st inp gen now).1 = .ok uid → inp.account = some a →
      (createUser st inp gen now).2.accounts = st.accounts ++ [mkAccountRow uid a]) ∧
    ((createUser st inp gen now).1 = .ok uid → inp.account = none →
      (createUser st inp gen now).2.accounts = st.accounts) ∧
    ((createUser st inp gen now).1 = .ok uid → inp.preferences = some p →
      (createUser st inp gen now).2.prefs = st.prefs ++ [mkPreferencesRow uid p]) ∧
    ((createUser st inp gen now).1 = .ok uid → inp.preferences = none →
      (createUser st inp gen now).2.prefs = st.prefs) ∧
    (a.status = none → (mkAccountRow uid a).status = "active") ∧
    (a.status = some s → s ≠ "" → (mkAccountRow uid a).status = s) ∧
    (a.role = none → (mkAccountRow uid a).role = "user") ∧
    (a.role = some s → s ≠ "" → (mkAccountRow uid a).role = s) ∧
    (a.subscription = none → (mkAccountRow uid a).subscription = "free") ∧
    (a.subscription = some s → s ≠ "" → (mkAccountRow uid a).subscription = s) ∧
    (p.language = none → (mkPreferencesRow uid p).language = "en") ∧
    (p.language = some s → s ≠ "" → (mkPreferencesRow uid p).language = s) ∧
    (p.timezone = none → (mkPreferencesRow uid p).timezone = "Asia/Jakarta") ∧
    (p.timezone = some s → s ≠ "" → (mkPreferencesRow uid p).timezone = s) ∧
    (mkPreferencesRow uid p).notify_email = true ∧
    (mkPreferencesRow uid p).notify_push = true ∧
    (mkPreferencesRow uid p).notify_sms = p.notify_sms.getD false := by
  refine ⟨?_, ?_, ?_, ?_, ?_, ?_, ?_, ?_, ?_, ?_, ?_, ?_, ?_, ?_, ?_, ?_, ?_⟩
  · intro hok ha
    have := (createUser_ok_shape st inp gen now uid hok).2.1
    rw [this, accountRowsOf, ha]
  · intro hok ha
    have := (createUser_ok_shape st inp gen now uid hok).2.1
    rw [this, accountRowsOf, ha]
    simp
  · intro hok hp
    have := (createUser_ok_shape st inp gen now uid hok).2.2.2.1
    rw [this, prefRowsOf, hp]
  · intro hok hp
    have := (createUser_ok_shape st inp gen now uid hok).2.2.2.1
    rw [this, prefRowsOf, hp]
    simp
  · intro h; simp [mkAccountRow, orDefaultStr, h]
  · intro h hs; simp [mkAccountRow, orDefaultStr, h, hs]
  · intro h; simp [mkAccountRow, orDefaultStr, h]
  · intro h hs; simp [mkAccountRow, orDefaultStr, h, hs]
  · intro h; simp [mkAccountRow, orDefaultStr, h]
  · intro h hs; simp [mkAccountRow, orDefaultStr, h, hs]
  · intro h; simp [mkPreferencesRow, orDefaultStr, h]
  · intro h hs; simp [mkPreferencesRow, orDefaultStr, h, hs]
  · intro h; simp [mkPreferencesRow, orDefaultStr, h]
  · intro h hs; simp [mkPreferencesRow, orDefaultStr, h, hs]
  · cases h : p.notify_email <;> simp [mkPreferencesRow, orDefaultBool, h]
  · cases h : p.notify_push <;> simp [mkPreferencesRow, orDefaultBool, h]
  · cases h : p.notify_sms <;> simp [mkPreferencesRow, orDefaultBool, h]

theorem subRecordDefaults_witness :
    ((createUser emptyStore cexCreateInput (fun _ => 7) 0).2.prefs =
      [mkPreferencesRow 7 cexPrefsInput]) ∧
    (mkPreferencesRow 7 cexPrefsInput).notify_email = true ∧
    (mkPreferencesRow 7 cexPrefsInput).language = "en" :=
  let h := subRecordDefaults emptyStore cexCreateInput (fun _ => 7) 0 7
    ⟨none, none, none⟩ cexPrefsInput ""
  ⟨by
      have := h.2.2.1 rfl rfl
      simpa using this,
   h.2.2.2.2.2.2.2.2.2.2.2.2.2.2.1,
   h.2.2.2.2.2.2.2.2.2.2.1 rfl⟩

/-- **C9.** `createUsersBulk` runs every item (identifier reservation
plus core insert only) inside one shared transaction: any error leaves
the store untouched; a batch containing an item with a missing
username or email necessarily fails and commits nothing; and a
successful batch appends exactly one core row per item and touches no
sub-record table. -/
theorem createUsersBulk_all_or_nothing (st : Store) (items : List BulkItem)
    (gen : Nat → Nat → Nat) (now : Nat) (e : ApiError) (uids : List Nat) :
    ((createUsersBulk st items gen now).1 = .error e →
      (createUsersBulk st items gen now).2 = st) ∧
    ((createUsersBulk st items gen now).1 = .ok uids →
      uids.length = items.length ∧
      (createUsersBulk st items gen now).2.users =
        st.users ++ (items.zip uids).map (fun q => mkBulkRow q.1 q.2 now) ∧
      (createUsersBulk st items gen now).2.accounts = st.accounts ∧
      (createUsersBulk st items gen now).2.addresses = st.addresses ∧
      (createUsersBulk st items gen now).2.prefs = st.prefs ∧
      (createUsersBulk st items gen now).2.profiles = st.profiles) ∧
    ((∃ item ∈ items, item.username = "" ∨ item.email = "") →
      (createUsersBulk st items gen now).2 = st ∧
      ∀ us : List Nat, (createUsersBulk st items gen now).1 ≠ .ok us) := by
  refine ⟨createUsersBulk_error_rollback st items gen now e, ?_, ?_⟩
  · intro hok
    unfold createUsersBulk at *
    by_cases hne : items.length = 0
    · rw [if_pos hne] at hok; simp at hok
    · rw [if_neg hne] at hok ⊢
      cases hgo : bulkGo gen now st 0 items with
      | error e' => rw [hgo] at hok; simp at hok
      | ok q =>
        obtain ⟨st', uids'⟩ := q
        rw [hgo] at hok
        simp only [Except.ok.injEq] at hok
        subst hok
        exact bulkGo_ok_shape gen now items st 0 st' _ hgo
  · intro hex
    by_cases hne : items.length = 0
    · obtain ⟨item, hitem, _⟩ := hex
      rw [List.length_eq_zero] at hne
      subst hne
      simp at hitem
    · obtain ⟨e', he'⟩ := bulkGo_invalid_item_fails gen now items st 0 hex
      unfold createUsersBulk
      rw [if_neg hne, he']
      exact ⟨rfl, fun us h => by simp at h⟩

def demoBulkItems : List BulkItem :=
  [{ username := "a", email := "a@x.io", first_name := none, last_name := none },
   { username := "", email := "b@x.io", first_name := none, last_name := none }]

theorem createUsersBulk_all_or_nothing_witness :
    (createUsersBulk emptyStore demoBulkItems (fun _ _ => 5) 0).2 = emptyStore :=
  ((createUsersBulk_all_or_nothing emptyStore demoBulkItems (fun _ _ => 5) 0
    .bulkItemInvalid []).2.2 ⟨demoBulkItems[1], by decide, by decide⟩).1

theorem leftMatches_spec {α : Type} (l : List α) (p : α → Bool) (x : Option α)
    (hx : x ∈ leftMatches l p) :
    (x = none ∧ ∀ a ∈ l, p a = false) ∨
    (∃ a, x = some a ∧ a ∈ l ∧ p a = true) := by
  unfold leftMatches at hx
  cases hf : l.filter p with
  | nil =>
    rw [hf] at hx
    simp only [List.mem_singleton] at hx
    subst hx
    left
    refine ⟨rfl, fun a ha => ?_⟩
    have := List.filter_eq_nil_iff.mp hf a ha
    simpa using this
  | cons b bs =>
    rw [hf] at hx
    simp only [List.mem_map] at hx
    obtain ⟨a, ha, rfl⟩ := hx
    right
    have hmem : a ∈ l.filter p := by rw [hf]; exact ha
    obtain ⟨hal, hap⟩ := List.mem_filter.mp hmem
    exact ⟨a, rfl, hal, hap⟩

theorem searchJoin_mem (st : Store) (r : SearchRow) (hr : r ∈ searchJoin st) :
    r.user ∈ st.users ∧
    ((r.account = none ∧ ∀ a ∈ st.accounts, a.user_id ≠ r.user.id) ∨
     (∃ a, r.account = some a ∧ a ∈ st.accounts ∧ a.user_id = r.user.id)) ∧
    ((r.address = none ∧ ∀ a ∈ st.addresses, a.user_id ≠ r.user.id) ∨
     (∃ a, r.address = some a ∧ a ∈ st.addresses ∧ a.user_id = r.user.id)) := by
  unfold searchJoin at hr
  rw [List.mem_flatMap] at hr
  obtain ⟨u, hu, hr⟩ := hr
  rw [List.mem_flatMap] at hr
  obtain ⟨acc, hacc, hr⟩ := hr
  rw [List.mem_map] at hr
  obtain ⟨addr, haddr, rfl⟩ := hr
  refine ⟨hu, ?_, ?_⟩
  · rcases leftMatches_spec _ _ _ hacc with ⟨hn, hall⟩ | ⟨a, heq, hal, hap⟩
    · subst hn
      exact Or.inl ⟨rfl, fun a ha => by simpa using hall a ha⟩
    · subst heq
      exact Or.inr ⟨a, rfl, hal, by simpa using hap⟩
  · rcases leftMatches_spec _ _ _ haddr with ⟨hn, hall⟩ | ⟨a, heq, hal, hap⟩
    · subst hn
      exact Or.inl ⟨rfl, fun a ha => by simpa using hall a ha⟩
    · subst heq
      exact Or.inr ⟨a, rfl, hal, by simpa using hap⟩

/-- **C3.** The count and page queries are derived from the same
filtered join: the returned total is the number of distinct matching
core-record identifiers and does not depend on `limit`/`offset` (an
offset at or beyond the matching rows yields zero rows but the same
total); the page holds at most `limit` rows, each drawn from the same
filtered join (so it satisfies the same predicates, its core row is a
`users` row, and a missing account/address appears as an explicit
`none` from the LEFT join, a present one as an actual matching row);
and the page is ordered by creation time descending. -/
theorem search_spec (st : Store) (c : SearchCriteria)
    (limit offset limit' offset' : Nat) (r : SearchRow) (a : AccountRow)
    (ad : AddressRow) :
    ((searchExec st c limit offset).total =
      ((searchFiltered st c).map fun x => x.user.id).dedup.length) ∧
    ((searchExec st c limit offset).total =
      (searchExec st c limit' offset').total) ∧
    ((searchFiltered st c).length ≤ offset →
      (searchExec st c limit offset).rows = [] ∧
      (searchExec st c limit offset).total = (searchExec st c limit' 0).total) ∧
    (searchExec st c limit offset).rows.length ≤ limit ∧
    List.Sorted searchDescRel (searchExec st c limit offset).rows ∧
    (r ∈ (searchExec st c limit offset).rows →
      r ∈ searchFiltered st c ∧ matchesCriteria c r = true ∧
      r.user ∈ st.users ∧
      (r.account = none → ∀ x ∈ st.accounts, x.user_id ≠ r.user.id) ∧
      (r.account = some a → a ∈ st.accounts ∧ a.user_id = r.user.id) ∧
      (r.address = none → ∀ x ∈ st.addresses, x.user_id ≠ r.user.id) ∧
      (r.address = some ad → ad ∈ st.addresses ∧ ad.user_id = r.user.id)) := by
  refine ⟨rfl, rfl, fun hoff => ⟨?_, rfl⟩, ?_, ?_, fun hmem => ?_⟩
  · unfold searchExec
    simp only
    have hlen : (List.insertionSort searchDescRel (searchFiltered st c)).length =
        (searchFiltered st c).length :=
      (List.perm_insertionSort searchDescRel (searchFiltered st c)).length_eq
    rw [List.drop_eq_nil_of_le (by omega), List.take_nil]
  · unfold searchExec
    simp only
    exact le_trans (List.length_take_le _ _) (le_refl _)
  · have hs := List.sorted_insertionSort searchDescRel (searchFiltered st c)
    exact List.Pairwise.sublist
      ((List.take_sublist _ _).trans (List.drop_sublist _ _)) hs
  · have h1 : r ∈ List.insertionSort searchDescRel (searchFiltered st c) :=
      ((List.take_sublist _ _).trans (List.drop_sublist _ _)).subset hmem
    have h2 : r ∈ searchFiltered st c :=
      (List.perm_insertionSort searchDescRel (searchFiltered st c)).mem_iff.mp h1
    obtain ⟨hjoin, hcrit⟩ := List.mem_filter.mp h2
    obtain ⟨huser, hacc, haddr⟩ := searchJoin_mem st r hjoin
    refine ⟨h2, hcrit, huser, ?_, ?_, ?_, ?_⟩
    · intro hnone x hx
      rcases hacc with ⟨_, hall⟩ | ⟨b, hb, _, _⟩
      · exact hall x hx
      · rw [hnone] at hb; cases hb
    · intro hsome
      rcases hacc with ⟨hn, _⟩ | ⟨b, hb, hbl, hbi⟩
      · rw [hsome] at hn; cases hn
      · rw [hsome] at hb
        cases hb
        exact ⟨hbl, hbi⟩
    · intro hnone x hx
      rcases haddr with ⟨_, hall⟩ | ⟨b, hb, _, _⟩
      · exact hall x hx
      · rw [hnone] at hb; cases hb
    · intro hsome
      rcases haddr with ⟨hn, _⟩ | ⟨b, hb, hbl, hbi⟩
      · rw [hsome] at hn; cases hn
      · rw [hsome] at hb
        cases hb
        exact ⟨hbl, hbi⟩

/-- The joined row produced for `demoUser` in `demoStore`. -/
def demoSearchRow : SearchRow :=
  { user := demoUser, account := some demoAccount, address := none }

theorem search_spec_witness :
    (searchFiltered demoStore ⟨none, none, none, none, none, none⟩).length ≤ 3 ∧
    (searchExec demoStore ⟨none, none, none, none, none, none⟩ 10 3).rows = [] ∧
    (searchExec demoStore ⟨none, none, none, none, none, none⟩ 10 3).total =
      (searchExec demoStore ⟨none, none, none, none, none, none⟩ 10 0).total ∧
    (demoSearchRow ∈
        (searchExec demoStore ⟨none, none, none, none, none, none⟩ 10 0).rows →
      demoSearchRow.user ∈ demoStore.users) := by
  have h := search_spec demoStore ⟨none, none, none, none, none, none⟩
    10 3 10 0 demoSearchRow demoAccount ⟨1, none, none, none, none, none⟩
  have hb := h.2.2.1 (by decide)
  exact ⟨by decide, hb.1, hb.2,
    fun hm => ((search_spec demoStore ⟨none, none, none, none, none, none⟩
      10 0 10 0 demoSearchRow demoAccount
      ⟨1, none, none, none, none, none⟩).2.2.2.2.2 hm).2.2.1⟩

/-- **C8 (divergence).** The handler performs no enumeration validation
at all: with `status = "bogus"` it executes the query and returns an
ordinary success with zero rows and total 0 — indistinguishable in
shape from a genuine empty result (removing the bogus filter on the
same store yields the row) — instead of signalling `InvalidCriteria`
(no such error kind exists anywhere in the embedding of the routes). -/
theorem search_bogus_status_silent_noop :
    searchExec demoStore ⟨none, some "bogus", none, none, none, none⟩ 10 0 =
      { rows := [], total := 0 } ∧
    searchExec demoStore ⟨none, none, none, none, none, none⟩ 10 0 =
      { rows := [demoSearchRow], total := 1 } := by
  decide

end ApiN8n
